import Mathlib

/-!
Shallow embedding of the avatar-lifecycle core of the studybud application
(`base/models.py`): the `User` model's overridden `save` and `delete`
methods, and the `UserManager` creation routines.

The state of the world visible to this code is modelled explicitly:
the user table (an association list keyed by primary key), the filesystem
(the set of existing file paths), a set of paths whose removal raises
`OSError` (modelling permission errors and the like), the diagnostic log
(the `print` calls), and instrumentation lists recording every `os.remove`
call and every `User.objects.get(pk=...)` lookup issued, so that claims of
the form "never issues a filesystem delete call" are directly statable.

Python string/field truthiness, `os.path.join`, `os.path.exists` and
`os.remove` are embedded as small total functions over this state.
-/

namespace StudyBud

/-- A `User` record, in memory or persisted.  Field values mirror
`base/models.py`: `pk` is the primary key (`None` before first save),
`avatar` is the stored file name of the `ImageField` (`none` models a
null value — the field is declared `null=True` — and `some ""` an empty
name; the declared default is the sentinel `"avatar.svg"`); `password`
holds the hashed password set by `set_password`. -/
structure UserRec where
  pk : Option Nat := none
  username : Option String := none
  name : Option String := none
  email : Option String := none
  bio : Option String := none
  avatar : Option String := some "avatar.svg"
  password : String := ""
  is_staff : Bool := false
  is_superuser : Bool := false
deriving DecidableEq, Repr

/-- The world state threaded through the lifecycle methods: the user
table, the filesystem (existing file paths), the set of paths whose
removal raises `OSError`, the printed diagnostic log, instrumentation
recording each `os.remove` call and each primary-key lookup, and the next
auto-assigned primary key. -/
structure State where
  db : List (Nat × UserRec) := []
  files : List String := []
  failing : List String := []
  log : List String := []
  removeCalls : List String := []
  lookupCalls : List Nat := []
  nextPk : Nat := 1
deriving DecidableEq, Repr

deriving instance DecidableEq for Except

/-- Python truthiness of an optional string: `None` and `""` are falsy.
This is both `bool(str)` and the truthiness of a Django `FieldFile`
(which is `bool(self.name)`). -/
def pyTruthy : Option String → Bool
  | none => false
  | some s => !(s == "")

/-- `os.path.join` for two components on a POSIX system: an absolute
second component wins, otherwise the components are joined with a single
separator. -/
def ospath_join (a b : String) : String :=
  if b.startsWith "/" then b
  else if a == "" then b
  else if a.endsWith "/" then a ++ b
  else a ++ "/" ++ b

/-- Lookup of a user record by primary key (`User.objects.get(pk=k)`,
returning `none` for `User.DoesNotExist`). -/
def dbGet (db : List (Nat × UserRec)) (k : Nat) : Option UserRec :=
  match db with
  | [] => none
  | (k', u) :: rest => if k' = k then some u else dbGet rest k

/-- Upsert of a user record at a primary key: the row-level effect of
`Model.save` (`UPDATE` the row when present, `INSERT` it otherwise). -/
def dbPut (db : List (Nat × UserRec)) (k : Nat) (u : UserRec) :
    List (Nat × UserRec) :=
  match db with
  | [] => [(k, u)]
  | (k', v) :: rest => if k' = k then (k, u) :: rest else (k', v) :: dbPut rest k u

/-- Removal of the row with the given primary key: the row-level effect of
`Model.delete`. -/
def dbRemove (db : List (Nat × UserRec)) (k : Nat) : List (Nat × UserRec) :=
  match db with
  | [] => []
  | (k', v) :: rest => if k' = k then dbRemove rest k else (k', v) :: dbRemove rest k

/-- `os.path.exists` on the modelled filesystem. -/
def os_path_exists (st : State) (p : String) : Bool :=
  st.files.contains p

/-- `os.remove`, instrumented: the call is always recorded in
`removeCalls`; if `p` is in the failing set the removal raises `OSError`
(second component `false`, filesystem unchanged), otherwise the file is
removed. -/
def os_remove (st : State) (p : String) : State × Bool :=
  let st1 : State := { st with removeCalls := st.removeCalls ++ [p] }
  if st1.failing.contains p then (st1, false)
  else ({ st1 with files := st1.files.erase p }, true)

/-- The `if os.path.exists(p): try: os.remove(p) except OSError as e:
print(msg)` block shared by `User.save` and `User.delete`: remove the
file if present, catching a raised `OSError` and logging `msg` instead
(the `print` call; the opaque text of the caught exception is elided from
the logged line). -/
def removeIfExists (st : State) (p : String) (msg : String) : State :=
  if os_path_exists st p then
    let r := os_remove st p
    if r.2 then r.1
    else { r.1 with log := r.1.log ++ [msg] }
  else st

namespace User

/-- `User.save` from `base/models.py`, with `root` standing for
`settings.MEDIA_ROOT`.  If the instance has a primary key, the persisted
version is fetched (`User.objects.get`, recorded in `lookupCalls`); when
it exists and its avatar is truthy, its name differs from the in-memory
avatar name, and it is not the default sentinel `"avatar.svg"`, the old
avatar file is removed from disk if present, any `OSError` being caught
and logged.  Then `super().save()` persists the record, assigning a fresh
primary key when the instance has none.  Returns the new state and the
saved record. -/
def save (root : String) (st : State) (self : UserRec) : State × UserRec :=
  let st1 : State :=
    match self.pk with
    | none => st
    | some k =>
      let st := { st with lookupCalls := st.lookupCalls ++ [k] }
      match dbGet st.db k with
      | none => st
      | some old =>
        if pyTruthy old.avatar && old.avatar != self.avatar
            && old.avatar != some "avatar.svg" then
          let p := ospath_join root (old.avatar.getD "")
          removeIfExists st p ("Error deleting old avatar file " ++ p)
        else st
  match self.pk with
  | some k => ({ st1 with db := dbPut st1.db k self }, self)
  | none =>
    let k := st1.nextPk
    let self1 := { self with pk := some k }
    ({ st1 with db := dbPut st1.db k self1, nextPk := k + 1 }, self1)

/-- `User.delete` from `base/models.py`.  If the avatar is truthy and not
the default sentinel `"avatar.svg"`, the avatar file is removed from disk
if present, any `OSError` being caught and logged.  Then
`super().delete()` removes the row; deleting an instance without a
primary key is the framework's error case. -/
def delete (root : String) (st : State) (self : UserRec) : Except String State :=
  let st1 : State :=
    if pyTruthy self.avatar && self.avatar != some "avatar.svg" then
      let p := ospath_join root (self.avatar.getD "")
      removeIfExists st p
        ("Error deleting avatar file " ++ p ++ " during user deletion")
    else st
  match self.pk with
  | some k => Except.ok { st1 with db := dbRemove st1.db k }
  | none => Except.error "User object cannot be deleted because its pk is None."

end User

/-- Whitespace test used by the `strip` step of email normalization
(the ASCII whitespace characters Python strips). -/
def isPySpace (c : Char) : Bool :=
  c == ' ' || c == '\t' || c == '\n' || c == '\r' || c == '\x0b' || c == '\x0c'

/-- Python's `str.strip()`: drop leading and trailing whitespace. -/
def pyStrip (cs : List Char) : List Char :=
  ((cs.dropWhile isPySpace).reverse.dropWhile isPySpace).reverse

/-- Split a character list at the LAST occurrence of `sep`
(Python's `rsplit(sep, 1)`), returning `none` when `sep` is absent. -/
def splitLastAt (sep : Char) : List Char → Option (List Char × List Char)
  | [] => none
  | c :: rest =>
    match splitLastAt sep rest with
    | some (l, r) => some (c :: l, r)
    | none => if c == sep then some ([], rest) else none

/-- Modelled from the spec: Django's `BaseUserManager.normalize_email`
(external framework code; the spec only says the creation routine
"normalizes the email").  A falsy email becomes `""`; when the stripped
email contains an `@`, the part after the last `@` is lowercased and the
result reassembled; otherwise the email is returned unchanged. -/
def normalize_email (email : Option String) : String :=
  let e := match email with
    | none => ""
    | some s => if s == "" then "" else s
  match splitLastAt '@' (pyStrip e.data) with
  | none => e
  | some (nm, dom) => String.mk (nm ++ '@' :: dom.map Char.toLower)

/-- Modelled from the spec: the password hashing performed by Django's
`user.set_password` (external framework code; the spec only says the
routine "hashes the password").  Represented as a tagging of the raw
password, with `None` mapped to the unusable-password marker. -/
def make_password : Option String → String
  | none => "!unusable"
  | some s => "pbkdf2$" ++ s

namespace UserManager

/-- `UserManager._create_user` from `base/models.py`: a falsy email
raises `ValueError('The given email must be set')` before any record is
constructed or touched, so an error result leaves the state unchanged by
construction; otherwise the email is normalized, a fresh record is built
with the model's field defaults (in particular the default avatar
sentinel), the password hash is set, and the record is saved. -/
def _create_user (root : String) (st : State) (email password : Option String)
    (is_staff is_superuser : Bool) : Except String (State × UserRec) :=
  if !(pyTruthy email) then Except.error "The given email must be set"
  else
    let e := normalize_email email
    let user : UserRec :=
      { pk := none, email := some e, password := make_password password,
        is_staff := is_staff, is_superuser := is_superuser }
    Except.ok (User.save root st user)

/-- `UserManager.create_user`: defaults both flags to `False` and
delegates to `_create_user`. -/
def create_user (root : String) (st : State) (email password : Option String) :
    Except String (State × UserRec) :=
  _create_user root st email password false false

/-- `UserManager.create_superuser`: defaults both flags to `True`
(`Option Bool` models a flag the caller may or may not have passed in
`extra_fields`), validates them, and delegates to `_create_user`. -/
def create_superuser (root : String) (st : State) (email password : Option String)
    (staffOpt superOpt : Option Bool) : Except String (State × UserRec) :=
  let s := staffOpt.getD true
  let su := superOpt.getD true
  if s ≠ true then Except.error "Superuser must have is_staff=True."
  else if su ≠ true then Except.error "Superuser must have is_superuser=True."
  else _create_user root st email password s su

end UserManager

/-! Concrete fixtures used by the witness and counterexample theorems. -/

def oldC1 : UserRec := { pk := some 1, avatar := some "a.png" }

def uC1 : UserRec := { pk := some 1, avatar := some "b.png" }

def st0 : State := {}

def stC1 : State := { db := [(1, oldC1)], files := [ospath_join "m" "a.png"] }

def oldC2 : UserRec := { pk := some 1, avatar := some "a.png" }

def uC2 : UserRec := { pk := some 1, avatar := some "b.png" }

def vC2 : UserRec := { pk := some 2, avatar := some "c.png" }

def stC2 : State :=
  { db := [(1, oldC2), (2, vC2)],
    files := [ospath_join "m" "a.png", ospath_join "m" "c.png"],
    failing := [ospath_join "m" "a.png", ospath_join "m" "c.png"] }

def oldC3 : UserRec := { pk := some 1, avatar := some "avatar.svg" }

def uC3 : UserRec := { pk := some 1, avatar := some "b.png" }

def vC3 : UserRec := { pk := some 2, avatar := some "avatar.svg" }

def stC3 : State := { db := [(1, oldC3), (2, vC3)], files := ["m/avatar.svg"] }

def vC4 : UserRec := { pk := some 1, avatar := some "c.png" }

def stC4 : State := { db := [(1, vC4)], files := [ospath_join "m" "c.png"] }

def uC5 : UserRec := { avatar := some "x.png" }

def stC5 : State := { files := [ospath_join "m" "x.png"] }

def uC6 : UserRec := { pk := some 5, avatar := some "b.png" }

def oldC7 : UserRec := { pk := some 3, avatar := some "x.png" }

def uC7 : UserRec := { pk := some 3, name := some "n", avatar := some "x.png" }

def stC7 : State := { db := [(3, oldC7)], files := [ospath_join "m" "x.png"] }

def uC8 : UserRec := { pk := some 1, email := some "u@x.io", avatar := none }

def stC8 : State :=
  { db := [(1, { pk := some 1, email := some "u@x.io", avatar := some "a.png" })] }

def u2C8 : UserRec := { pk := some 1, email := some "e@x.io", password := "!unusable" }

def st2C8 : State := { db := [(1, u2C8)], nextPk := 2 }

def ubC8 : UserRec := { pk := some 2, avatar := some "p.png" }

def oldC9 : UserRec := { pk := some 1, avatar := none }

def uC9 : UserRec := { pk := some 1, avatar := some "n.png" }

def vC9 : UserRec := { pk := some 2, avatar := some "" }

def stC9 : State := { db := [(1, oldC9), (2, vC9)], files := [ospath_join "m" "n.png"] }

/-! Helper lemmas shared by the claim theorems. -/

@[simp]
theorem dbGet_dbPut (db : List (Nat × UserRec)) (k : Nat) (u : UserRec) :
    dbGet (dbPut db k u) k = some u := by
  induction db with
  | nil => simp [dbGet, dbPut]
  | cons hd tl ih =>
    obtain ⟨k', v⟩ := hd
    by_cases h : k' = k <;> simp [dbGet, dbPut, h, ih]

@[simp]
theorem dbGet_dbRemove (db : List (Nat × UserRec)) (k : Nat) :
    dbGet (dbRemove db k) k = none := by
  induction db with
  | nil => simp [dbGet, dbRemove]
  | cons hd tl ih =>
    obtain ⟨k', v⟩ := hd
    by_cases h : k' = k <;> simp [dbGet, dbRemove, h, ih]

@[simp]
theorem removeIfExists_db (st : State) (p m : String) :
    (removeIfExists st p m).db = st.db := by
  by_cases he : p ∈ st.files <;>
    by_cases hf : p ∈ st.failing <;>
      simp [removeIfExists, os_remove, os_path_exists, he, hf]

/-- Whatever the file-cleanup phase does, `User.save` on an instance with
a primary key ends by persisting exactly the in-memory record at that
key. -/
theorem save_persists_record (root : String) (st : State) (u : UserRec) (k : Nat)
    (hpk : u.pk = some k) : dbGet (User.save root st u).1.db k = some u := by
  unfold User.save
  rw [hpk]
  exact dbGet_dbPut _ k u

/-! The claim theorems. -/

/-- C1: for every existing user record (one with a primary key) whose
persisted avatar reference is a non-default, non-empty path `a` and whose
in-memory avatar reference is a different path `b`, saving the record
deletes the file at the media root joined with `a` when such a file
exists (and its removal does not raise), and then persists the record
with the new reference `b`. -/
theorem save_changed_avatar_deletes_old (root : String) (st : State)
    (u old : UserRec) (k : Nat) (a b : String)
    (hpk : u.pk = some k) (hold : dbGet st.db k = some old)
    (ha : old.avatar = some a) (hb : u.avatar = some b)
    (hne : a ≠ b) (hdef : a ≠ "avatar.svg") (hnn : a ≠ "")
    (hex : ospath_join root a ∈ st.files)
    (hok : ospath_join root a ∉ st.failing) :
    (User.save root st u).1.files = st.files.erase (ospath_join root a) ∧
    dbGet (User.save root st u).1.db k = some u := by
  simp [User.save, hpk, hold, ha, hb, hne, hdef, hnn, hex, hok,
    pyTruthy, removeIfExists, os_path_exists, os_remove]

theorem save_changed_avatar_deletes_old_witness :
    (User.save "m" stC1 uC1).1.files = stC1.files.erase (ospath_join "m" "a.png") ∧
    dbGet (User.save "m" stC1 uC1).1.db 1 = some uC1 :=
  save_changed_avatar_deletes_old "m" stC1 uC1 oldC1 1 "a.png" "b.png"
    rfl rfl rfl rfl (by decide) (by decide) (by decide)
    (by simp [stC1]) (by simp [stC1])

/-- C2: when the removal of the old avatar file raises an `OSError`
during `User.save`, and when the removal of the avatar file raises an
`OSError` during `User.delete`, the error is caught and logged, the
record-level save (resp. delete) still proceeds and succeeds, and the
caller sees no error: the save still persists the in-memory record and
the delete still returns `ok` with the row removed, the only further
state change being the recorded removal attempt and the logged line. -/
theorem fs_error_swallowed_save_and_delete (root : String) (st : State)
    (u old : UserRec) (k : Nat) (a b : String)
    (hpk : u.pk = some k) (hold : dbGet st.db k = some old)
    (ha : old.avatar = some a) (hb : u.avatar = some b)
    (hne : a ≠ b) (hdef : a ≠ "avatar.svg") (hnn : a ≠ "")
    (hex : ospath_join root a ∈ st.files)
    (hfail : ospath_join root a ∈ st.failing)
    (v : UserRec) (k2 : Nat) (c : String)
    (hpk2 : v.pk = some k2) (hc : v.avatar = some c)
    (hcdef : c ≠ "avatar.svg") (hcnn : c ≠ "")
    (hex2 : ospath_join root c ∈ st.files)
    (hfail2 : ospath_join root c ∈ st.failing) :
    (User.save root st u =
      ({ st with lookupCalls := st.lookupCalls ++ [k],
                 removeCalls := st.removeCalls ++ [ospath_join root a],
                 log := st.log ++
                   ["Error deleting old avatar file " ++ ospath_join root a],
                 db := dbPut st.db k u }, u) ∧
     dbGet (User.save root st u).1.db k = some u) ∧
    User.delete root st v = Except.ok
      { st with removeCalls := st.removeCalls ++ [ospath_join root c],
                log := st.log ++
                  ["Error deleting avatar file " ++ ospath_join root c ++
                    " during user deletion"],
                db := dbRemove st.db k2 } := by
  refine ⟨⟨?_, ?_⟩, ?_⟩ <;>
    simp [User.save, User.delete, hpk, hold, ha, hb, hne, hdef, hnn, hex, hfail,
      hpk2, hc, hcdef, hcnn, hex2, hfail2, pyTruthy, removeIfExists,
      os_path_exists, os_remove]

theorem fs_error_swallowed_save_and_delete_witness :
    (User.save "m" stC2 uC2 =
      ({ stC2 with lookupCalls := stC2.lookupCalls ++ [1],
                   removeCalls := stC2.removeCalls ++ [ospath_join "m" "a.png"],
                   log := stC2.log ++
                     ["Error deleting old avatar file " ++ ospath_join "m" "a.png"],
                   db := dbPut stC2.db 1 uC2 }, uC2) ∧
     dbGet (User.save "m" stC2 uC2).1.db 1 = some uC2) ∧
    User.delete "m" stC2 vC2 = Except.ok
      { stC2 with removeCalls := stC2.removeCalls ++ [ospath_join "m" "c.png"],
                  log := stC2.log ++
                    ["Error deleting avatar file " ++ ospath_join "m" "c.png" ++
                      " during user deletion"],
                  db := dbRemove stC2.db 2 } :=
  fs_error_swallowed_save_and_delete "m" stC2 uC2 oldC2 1 "a.png" "b.png"
    rfl rfl rfl rfl (by decide) (by decide) (by decide)
    (by simp [stC2]) (by simp [stC2])
    vC2 2 "c.png" rfl rfl (by decide) (by decide)
    (by simp [stC2]) (by simp [stC2])

/-- C3: for every user whose persisted avatar reference equals the
default sentinel `"avatar.svg"`, saving issues no filesystem delete
call, and for every user whose avatar reference equals the sentinel,
deleting issues no filesystem delete call: in both cases the resulting
state differs from the input state only in the user table (and, for
save, the recorded lookup), so the sentinel file is never a deletion
target. -/
theorem default_avatar_never_deleted (root : String) (st : State)
    (u old : UserRec) (k : Nat)
    (hpk : u.pk = some k) (hold : dbGet st.db k = some old)
    (hdef : old.avatar = some "avatar.svg")
    (v : UserRec) (k2 : Nat)
    (hpk2 : v.pk = some k2) (hvdef : v.avatar = some "avatar.svg") :
    User.save root st u =
      ({ st with lookupCalls := st.lookupCalls ++ [k], db := dbPut st.db k u }, u) ∧
    User.delete root st v = Except.ok { st with db := dbRemove st.db k2 } := by
  constructor <;>
    simp [User.save, User.delete, hpk, hold, hdef, hpk2, hvdef, pyTruthy]

theorem default_avatar_never_deleted_witness :
    User.save "m" stC3 uC3 =
      ({ stC3 with lookupCalls := stC3.lookupCalls ++ [1],
                   db := dbPut stC3.db 1 uC3 }, uC3) ∧
    User.delete "m" stC3 vC3 = Except.ok { stC3 with db := dbRemove stC3.db 2 } :=
  default_avatar_never_deleted "m" stC3 uC3 oldC3 1 rfl rfl rfl vC3 2 rfl rfl

/-- C4: for every user with a non-default, non-empty avatar reference
`c` and a primary key, deleting the user removes the record from storage
unconditionally (the delete returns `ok` and the row is gone regardless
of the file deletion outcome), and when the file at the media root
joined with `c` exists and its removal does not raise, that file is
deleted as well (the cleanup being sequenced before the row removal in
the code). -/
theorem delete_cleans_file_and_always_removes_record (root : String) (st : State)
    (v : UserRec) (k : Nat) (c : String)
    (hpk : v.pk = some k) (hc : v.avatar = some c)
    (hcnn : c ≠ "") (hcdef : c ≠ "avatar.svg") :
    (∃ st2, User.delete root st v = Except.ok st2 ∧ dbGet st2.db k = none) ∧
    (ospath_join root c ∈ st.files → ospath_join root c ∉ st.failing →
      User.delete root st v = Except.ok
        { st with files := st.files.erase (ospath_join root c),
                  removeCalls := st.removeCalls ++ [ospath_join root c],
                  db := dbRemove st.db k }) := by
  constructor
  · unfold User.delete
    rw [hpk]
    refine ⟨_, rfl, ?_⟩
    simp
  · intro h1 h2
    simp [User.delete, hpk, hc, hcnn, hcdef, h1, h2, pyTruthy,
      removeIfExists, os_path_exists, os_remove]

theorem delete_cleans_file_and_always_removes_record_witness :
    (∃ st2, User.delete "m" stC4 vC4 = Except.ok st2 ∧ dbGet st2.db 1 = none) ∧
    User.delete "m" stC4 vC4 = Except.ok
      { stC4 with files := stC4.files.erase (ospath_join "m" "c.png"),
                  removeCalls := stC4.removeCalls ++ [ospath_join "m" "c.png"],
                  db := dbRemove stC4.db 1 } :=
  ⟨(delete_cleans_file_and_always_removes_record "m" stC4 vC4 1 "c.png"
      rfl rfl (by decide) (by decide)).1,
   (delete_cleans_file_and_always_removes_record "m" stC4 vC4 1 "c.png"
      rfl rfl (by decide) (by decide)).2 (by simp [stC4]) (by simp [stC4])⟩

/-- C5: for every user record being saved with no primary-key value
(first-time creation), the save performs no lookup of a previous version
and no filesystem access of any kind: the resulting state differs from
the input state only by the inserted record (at the next free key, which
is also assigned to the returned record) and the bumped key counter. -/
theorem create_skips_reconciliation (root : String) (st : State)
    (u : UserRec) (hpk : u.pk = none) :
    User.save root st u =
      ({ st with db := dbPut st.db st.nextPk { u with pk := some st.nextPk },
                 nextPk := st.nextPk + 1 }, { u with pk := some st.nextPk }) := by
  simp [User.save, hpk]

theorem create_skips_reconciliation_witness :
    User.save "m" stC5 uC5 =
      ({ stC5 with db := dbPut stC5.db stC5.nextPk { uC5 with pk := some stC5.nextPk },
                   nextPk := stC5.nextPk + 1 }, { uC5 with pk := some stC5.nextPk }) :=
  create_skips_reconciliation "m" stC5 uC5 rfl

/-- C6: during save reconciliation, when the lookup of the previously
persisted record by primary key finds no record (it was concurrently
deleted), reconciliation is skipped silently: no file deletion is
attempted, nothing is logged, and the save still persists the in-memory
record, the only other state change being the recorded lookup. -/
theorem lookup_miss_skips_cleanup (root : String) (st : State)
    (u : UserRec) (k : Nat) (hpk : u.pk = some k)
    (hmiss : dbGet st.db k = none) :
    User.save root st u =
      ({ st with lookupCalls := st.lookupCalls ++ [k], db := dbPut st.db k u }, u) := by
  simp [User.save, hpk, hmiss]

theorem lookup_miss_skips_cleanup_witness :
    User.save "m" st0 uC6 =
      ({ st0 with lookupCalls := st0.lookupCalls ++ [5],
                  db := dbPut st0.db 5 uC6 }, uC6) :=
  lookup_miss_skips_cleanup "m" st0 uC6 5 rfl rfl

/-- C7: for every existing user record saved with an in-memory avatar
reference equal to its persisted avatar reference, the save issues zero
filesystem delete calls and leaves the filesystem untouched: the
resulting state differs from the input state only in the user table and
the recorded lookup. -/
theorem unchanged_avatar_no_fs_delete (root : String) (st : State)
    (u old : UserRec) (k : Nat)
    (hpk : u.pk = some k) (hold : dbGet st.db k = some old)
    (heq : old.avatar = u.avatar) :
    User.save root st u =
      ({ st with lookupCalls := st.lookupCalls ++ [k], db := dbPut st.db k u }, u) := by
  simp [User.save, hpk, hold, heq]

theorem unchanged_avatar_no_fs_delete_witness :
    User.save "m" stC7 uC7 =
      ({ stC7 with lookupCalls := stC7.lookupCalls ++ [3],
                   db := dbPut stC7.db 3 uC7 }, uC7) :=
  unchanged_avatar_no_fs_delete "m" stC7 uC7 oldC7 3 rfl rfl rfl

/-- C8, counterexample: the avatar field is declared nullable
(`null=True`), and nothing in the lifecycle code prevents a null
reference from being persisted: saving an existing user whose in-memory
avatar reference is null persists the record with a null avatar
reference, refuting "for every persisted User record, the avatar
reference is never null ... and every operation of the system preserves
this" at this concrete input. -/
theorem persisted_null_avatar_counterexample :
    dbGet (User.save "m" stC8 uC8).1.db 1 = some uC8 ∧ uC8.avatar = none :=
  ⟨rfl, rfl⟩

/-- C8, amended: every user record produced by the user-creation routine
carries the non-null default sentinel `"avatar.svg"` as its avatar
reference, and saving persists the in-memory avatar reference unchanged,
so non-nullity is preserved whenever the in-memory reference is non-null;
the schema itself, however, permits null, and saving a record whose
in-memory avatar is null persists a null reference. -/
theorem avatar_never_null_amended (root : String) (st st2 : State)
    (email pw : Option String) (u2 : UserRec)
    (hcu : UserManager.create_user root st email pw = Except.ok (st2, u2))
    (u : UserRec) (k : Nat) (hpk : u.pk = some k) (hav : u.avatar ≠ none) :
    u2.avatar = some "avatar.svg" ∧
    (dbGet (User.save root st u).1.db k = some u ∧ u.avatar ≠ none) := by
  refine ⟨?_, save_persists_record root st u k hpk, hav⟩
  cases hpt : pyTruthy email with
  | false => simp [UserManager.create_user, UserManager._create_user, hpt] at hcu
  | true =>
    simp [UserManager.create_user, UserManager._create_user, hpt, User.save] at hcu
    rw [← hcu.2]

theorem avatar_never_null_amended_witness :
    u2C8.avatar = some "avatar.svg" ∧
    (dbGet (User.save "m" st0 ubC8).1.db 2 = some ubC8 ∧ ubC8.avatar ≠ none) :=
  avatar_never_null_amended "m" st0 st2C8 (some "e@x.io") none u2C8
    (by decide) ubC8 2 rfl (by decide)

/-- C9: if the persisted (old) avatar reference of an existing user is
null or empty, saving the user performs no filesystem deletion even when
the in-memory reference differs, and likewise deleting a user whose
avatar reference is null or empty performs no filesystem deletion; both
operations still complete the record-level save (resp. delete), the
resulting state differing from the input only in the user table (and the
recorded lookup for save). -/
theorem empty_avatar_no_fs_delete (root : String) (st : State)
    (u old : UserRec) (k : Nat)
    (hpk : u.pk = some k) (hold : dbGet st.db k = some old)
    (hemp : old.avatar = none ∨ old.avatar = some "")
    (v : UserRec) (k2 : Nat) (hpk2 : v.pk = some k2)
    (hvemp : v.avatar = none ∨ v.avatar = some "") :
    User.save root st u =
      ({ st with lookupCalls := st.lookupCalls ++ [k], db := dbPut st.db k u }, u) ∧
    User.delete root st v = Except.ok { st with db := dbRemove st.db k2 } := by
  constructor
  · rcases hemp with h | h <;> simp [User.save, hpk, hold, h, pyTruthy]
  · rcases hvemp with h | h <;> simp [User.delete, hpk2, h, pyTruthy]

theorem empty_avatar_no_fs_delete_witness :
    User.save "m" stC9 uC9 =
      ({ stC9 with lookupCalls := stC9.lookupCalls ++ [1],
                   db := dbPut stC9.db 1 uC9 }, uC9) ∧
    User.delete "m" stC9 vC9 = Except.ok { stC9 with db := dbRemove stC9.db 2 } :=
  empty_avatar_no_fs_delete "m" stC9 uC9 oldC9 1 rfl rfl (Or.inl rfl)
    vC9 2 rfl (Or.inr rfl)

/-- C10: for every falsy (null or empty) email input the user-creation
routine fails with `ValueError('The given email must be set')` — raised
before any record is constructed or saved, so an error result carries no
state change — and for every truthy email the routine succeeds, the
created record carrying the normalized email and the hashed password,
and being persisted in storage at the key it was assigned. -/
theorem create_user_email_validation (root : String) (st : State)
    (email pw : Option String) :
    (pyTruthy email = false →
      UserManager.create_user root st email pw =
        Except.error "The given email must be set") ∧
    (pyTruthy email = true →
      ∃ st2 u2, UserManager.create_user root st email pw = Except.ok (st2, u2) ∧
        u2.email = some (normalize_email email) ∧
        u2.password = make_password pw ∧
        dbGet st2.db st.nextPk = some u2) := by
  constructor
  · intro h
    simp [UserManager.create_user, UserManager._create_user, h]
  · intro h
    refine ⟨{ st with
        db := dbPut st.db st.nextPk
          { pk := some st.nextPk, email := some (normalize_email email),
            password := make_password pw, is_staff := false, is_superuser := false },
        nextPk := st.nextPk + 1 },
      { pk := some st.nextPk, email := some (normalize_email email),
        password := make_password pw, is_staff := false, is_superuser := false },
      ?_, ?_, ?_, ?_⟩ <;>
      simp [UserManager.create_user, UserManager._create_user, h, User.save]

theorem create_user_email_validation_witness :
    (UserManager.create_user "m" st0 none none =
      Except.error "The given email must be set") ∧
    (∃ st2 u2,
      UserManager.create_user "m" st0 (some "Foo@BAR.com") (some "pw") =
        Except.ok (st2, u2) ∧
      u2.email = some (normalize_email (some "Foo@BAR.com")) ∧
      u2.password = make_password (some "pw") ∧
      dbGet st2.db st0.nextPk = some u2) :=
  ⟨(create_user_email_validation "m" st0 none none).1 rfl,
   (create_user_email_validation "m" st0 (some "Foo@BAR.com") (some "pw")).2
     (by decide)⟩

end StudyBud
